import Mathlib

/-!
Shallow embedding of the "Smart Pricing AI" client logic:
invoice totals and form validation (`InvoiceBuilder.tsx`),
CSV schema validation (`DataImport.tsx`), and the shipping
estimator (`ShippingEstimator.tsx`), with the local-variant
shipping formula modelled from the specification where noted.
Monetary and numeric form values are modelled as rationals.
-/

set_option autoImplicit false

/-- Buyer segment enum from `formSchema` in `InvoiceBuilder.tsx`. -/
inductive Segment where
  | academic | biotech | pharma | distributor | other
deriving DecidableEq, Repr

/-- Fee type enum from `feeSchema` in `InvoiceBuilder.tsx`. -/
inductive FeeType where
  | tariff | service | handling | promotion | other
deriving DecidableEq, Repr

/-- Line item from `invoiceItemSchema` in `InvoiceBuilder.tsx`. -/
structure InvoiceItem where
  sku : String
  description : String
  quantity : ℚ
  unitPrice : ℚ
  currency : String
  weightKg : Option ℚ
  hsCode : Option String
  originCountry : Option String
deriving DecidableEq, Repr

/-- Fee from `feeSchema` in `InvoiceBuilder.tsx`. -/
structure Fee where
  type : FeeType
  label : String
  amount : ℚ
deriving DecidableEq, Repr

/-- Supplier block of `formSchema` in `InvoiceBuilder.tsx`. -/
structure Supplier where
  name : String
  address : String
  country : String
deriving DecidableEq, Repr

/-- Buyer block of `formSchema` in `InvoiceBuilder.tsx`. -/
structure Buyer where
  name : String
  segment : Segment
  address : String
  country : String
deriving DecidableEq, Repr

/-- The invoice form state, `InvoiceFormValues` in `InvoiceBuilder.tsx`. -/
structure InvoiceFormValues where
  invoiceNumber : String
  invoiceDate : String
  supplier : Supplier
  buyer : Buyer
  items : List InvoiceItem
  fees : List Fee
  notes : Option String
deriving DecidableEq, Repr

/-- Result record of the `totals` memo in `InvoiceBuilder.tsx`. -/
structure Totals where
  itemsSubtotal : ℚ
  feesTotal : ℚ
  grandTotal : ℚ
deriving DecidableEq, Repr

/-- The `totals` computation of `InvoiceBuilder.tsx` lines 101-107
(`reduce` with initial accumulator 0 over items and over fees). -/
def totals (values : InvoiceFormValues) : Totals :=
  let itemsSubtotal := values.items.foldl (fun sum item => sum + item.quantity * item.unitPrice) 0
  let feesTotal := values.fees.foldl (fun sum f => sum + f.amount) 0
  let grandTotal := itemsSubtotal + feesTotal
  { itemsSubtotal := itemsSubtotal, feesTotal := feesTotal, grandTotal := grandTotal }

/-- Validity of a line item under `invoiceItemSchema`:
`sku` and `description` nonempty, `quantity ≥ 1`, `unitPrice ≥ 0`. -/
def invoiceItemValid (i : InvoiceItem) : Bool :=
  decide (1 ≤ i.sku.length) && decide (1 ≤ i.description.length)
    && decide ((1 : ℚ) ≤ i.quantity) && decide ((0 : ℚ) ≤ i.unitPrice)

/-- Validity of a fee under `feeSchema`: nonempty `label`; `amount` is any number. -/
def feeValid (f : Fee) : Bool :=
  decide (1 ≤ f.label.length)

/-- The zod `formSchema` of `InvoiceBuilder.tsx` as a validity predicate:
nonempty header strings, nonempty supplier/buyer fields, and
`items: z.array(invoiceItemSchema).min(1)`. -/
def formSchemaValid (v : InvoiceFormValues) : Bool :=
  decide (1 ≤ v.invoiceNumber.length) && decide (1 ≤ v.invoiceDate.length)
    && decide (1 ≤ v.supplier.name.length) && decide (1 ≤ v.supplier.address.length)
    && decide (1 ≤ v.supplier.country.length)
    && decide (1 ≤ v.buyer.name.length) && decide (1 ≤ v.buyer.address.length)
    && decide (1 ≤ v.buyer.country.length)
    && decide (1 ≤ v.items.length) && v.items.all invoiceItemValid
    && v.fees.all feeValid

/-- `handleSubmit(onGeneratePdf)`: the resolver validates the form against
`formSchema` and only on success runs PDF export, which stamps `totals`
onto the document. Modelled as returning the stamped totals on success. -/
def handleSubmitGeneratePdf (v : InvoiceFormValues) : Option Totals :=
  if formSchemaValid v then some (totals v) else none

/-- The `defaultValues` constant of `InvoiceBuilder.tsx`: one line item
(qty 2, unit price 185.0) and two fees (25 and 15). -/
def defaultValues : InvoiceFormValues :=
  { invoiceNumber := "INV-1001"
    invoiceDate := "2025-08-09"
    supplier := { name := "Acme Life Sciences"
                  address := "123 Science Park Blvd\nBoston, MA 02115"
                  country := "US" }
    buyer := { name := "Atlas Biotech Inc."
               segment := Segment.biotech
               address := "500 Mission St\nSan Francisco, CA 94105"
               country := "US" }
    items := [{ sku := "AB-HEPES-1KG"
                description := "HEPES Buffer 1kg, molecular biology grade"
                quantity := 2
                unitPrice := 185.0
                currency := "USD"
                weightKg := some 1.0
                hsCode := some "2933.99"
                originCountry := some "US" }]
    fees := [{ type := FeeType.service, label := "Cold chain packaging", amount := 25 },
             { type := FeeType.handling, label := "Hazmat handling", amount := 15 }]
    notes := some "Thank you for your business." }

/-- `REQUIRED_HEADERS` from `DataImport.tsx`: the fixed 15-column schema. -/
def REQUIRED_HEADERS : List String :=
  ["order_id", "date_ordered", "product_type", "customer_type", "price",
   "competitor_price", "promotion_flag", "marketing_spend", "economic_index",
   "seasonality_index", "trend_index", "day_of_week", "month", "price_gap",
   "quantity"]

/-- JavaScript `String.prototype.trim` as used by `h.trim()` in
`DataImport.tsx`: drop leading and trailing whitespace characters. -/
def trim (s : String) : String :=
  String.mk (((s.data.dropWhile Char.isWhitespace).reverse.dropWhile Char.isWhitespace).reverse)

/-- `validateHeaders` from `DataImport.tsx` lines 16-21: trim every header,
then `missing` is the required headers not among the trimmed ones and
`extra` is the trimmed headers outside the required set. -/
def validateHeaders (headers : List String) : List String × List String :=
  let normalized := headers.map trim
  let missing := REQUIRED_HEADERS.filter (fun h => !normalized.contains h)
  let extra := normalized.filter (fun h => !REQUIRED_HEADERS.contains h)
  (missing, extra)

/-- A raw parsed CSV row as PapaParse delivers it with `header: true`:
an association of column name to cell text (`dynamicTyping: false`
keeps every value a string; a missing cell is an absent key). -/
def RawRow : Type := List (String × String)

/-- The row-coercion step of `handleFile` in `DataImport.tsx` lines 50-56:
build a record with exactly the required keys, reading `r?.[key] ?? ''`. -/
def coerceRow (r : RawRow) : List (String × String) :=
  REQUIRED_HEADERS.map (fun key => (key, ((List.lookup key r).getD "")))

/-- The `ParseResult` record of `DataImport.tsx`. -/
structure ParseResult where
  rows : List (List (String × String))
  missingHeaders : List String
  extraHeaders : List String
deriving DecidableEq, Repr

/-- The `complete` callback of `handleFile` in `DataImport.tsx` lines 40-59:
validate headers; when any required header is missing, keep zero rows;
otherwise coerce every data row to the required key set. -/
def handleFile (headers : List String) (data : List RawRow) : ParseResult :=
  let v := validateHeaders headers
  if 0 < v.1.length then
    { rows := [], missingHeaders := v.1, extraHeaders := v.2 }
  else
    { rows := data.map coerceRow, missingHeaders := v.1, extraHeaders := v.2 }

/-- Service levels of the shipping estimator. -/
inductive ServiceLevel where
  | ground | express | priority
deriving DecidableEq, Repr

/-- The `EstimatorForm` state of `ShippingEstimator.tsx`. -/
structure EstimatorForm where
  originZipCode : String
  destinationZipCode : String
  totalWeightKg : ℚ
  numBoxes : ℚ
  serviceLevel : ServiceLevel
deriving DecidableEq, Repr

/-- The JSON body `fetchShippingEstimate` sends in `ShippingEstimator.tsx`
lines 35-41: every field is copied from the form unchanged. -/
structure ShippingRequestBody where
  origin_zip : String
  destination_zip : String
  weight_kg : ℚ
  num_boxes : ℚ
  service_level : ServiceLevel
deriving DecidableEq, Repr

/-- The request-body construction inside `fetchShippingEstimate`
(`ShippingEstimator.tsx` lines 30-42): a field-for-field copy of the
form values with no clamping or coercion. -/
def shippingRequestBody (data : EstimatorForm) : ShippingRequestBody :=
  { origin_zip := data.originZipCode
    destination_zip := data.destinationZipCode
    weight_kg := data.totalWeightKg
    num_boxes := data.numBoxes
    service_level := data.serviceLevel }

/-- The cost breakdown of a `ShippingEstimate` in `ShippingEstimator.tsx`. -/
structure Breakdown where
  base_shipping : ℚ
  fuel_surcharge : ℚ
  handling_fee : ℚ
deriving DecidableEq, Repr

/-- The `ShippingEstimate` response shape of `ShippingEstimator.tsx`. -/
structure ShippingEstimate where
  origin_zip : String
  destination_zip : String
  weight_kg : ℚ
  num_boxes : ℚ
  service_level : String
  estimated_cost : ℚ
  breakdown : Breakdown
  provider : String
  message : String
deriving DecidableEq, Repr

/-- An HTTP response as observed by `fetchShippingEstimate`: a success
flag, a status text, and (for successful responses) the decoded JSON. -/
structure HttpResponse where
  ok : Bool
  statusText : String
  body : ShippingEstimate
deriving DecidableEq, Repr

/-- `fetchShippingEstimate` of `ShippingEstimator.tsx` lines 29-49:
a non-`ok` response raises `Shipping estimation failed: <statusText>`;
otherwise the JSON body is returned. -/
def fetchShippingEstimate (response : HttpResponse) : Except String ShippingEstimate :=
  if !response.ok then
    Except.error ("Shipping estimation failed: " ++ response.statusText)
  else
    Except.ok response.body

/-- The component state of `ShippingEstimator`: the `estimate` and
`isLoading` `useState` cells. -/
structure EstimatorState where
  estimate : Option ShippingEstimate
  isLoading : Bool
deriving DecidableEq, Repr

/-- `onSubmit` (`ShippingEstimator.tsx` lines 78-81): set the loading flag
and issue the mutation request built from the form. -/
def onSubmitShipping (data : EstimatorForm) (s : EstimatorState) :
    EstimatorState × Option ShippingRequestBody :=
  ({ s with isLoading := true }, some (shippingRequestBody data))

/-- The mutation `onSuccess` handler (`ShippingEstimator.tsx` lines 68-71):
store the estimate and clear the loading flag; no further request. -/
def onSuccessShipping (data : ShippingEstimate) (s : EstimatorState) :
    EstimatorState × Option ShippingRequestBody :=
  ({ s with estimate := some data, isLoading := false }, none)

/-- The mutation `onError` handler (`ShippingEstimator.tsx` lines 72-75):
the error is only logged to the console; the loading flag is cleared,
the stored estimate is untouched, and no new request is issued. -/
def onErrorShipping (s : EstimatorState) :
    EstimatorState × Option ShippingRequestBody :=
  ({ s with isLoading := false }, none)

/-- The three alternatives the estimate panel can render
(`ShippingEstimator.tsx` lines 151-188); there is no error branch. -/
inductive EstimatorView where
  | loadingView
  | estimateView (e : ShippingEstimate)
  | placeholderView
deriving DecidableEq, Repr

/-- The rendering of the estimate panel: loading text while `isLoading`,
else the estimate when present, else the placeholder prompt. -/
def renderEstimator (s : EstimatorState) : EstimatorView :=
  if s.isLoading then EstimatorView.loadingView
  else
    match s.estimate with
    | some e => EstimatorView.estimateView e
    | none => EstimatorView.placeholderView

/-- Modelled from the spec: base rates of the local-variant shipping
estimator (spec §4.2), which is absent from `src/` (only the server-backed
variant is present there): ground=4.5, express=7.5, priority=11.5. -/
def baseRate : ServiceLevel → ℚ
  | ServiceLevel.ground => 4.5
  | ServiceLevel.express => 7.5
  | ServiceLevel.priority => 11.5

/-- Modelled from the spec: the fixed zone table of the local-variant
estimator, keyed by `"{origin}->{destination}"` (spec §4.2). -/
def zoneTable : List (String × ℚ) :=
  [("US->US", 1), ("US->CA", 1.2), ("US->EU", 1.6), ("US->CN", 1.8),
   ("EU->EU", 1), ("EU->US", 1.5)]

/-- Modelled from the spec: the zone-multiplier lookup of the local-variant
estimator, defaulting to 1.7 for any unlisted pair (spec §4.2). -/
def zoneMultiplier (origin destination : String) : ℚ :=
  (List.lookup (origin ++ "->" ++ destination) zoneTable).getD 1.7

/-- The derived local shipping estimate record (spec §4.2). -/
structure LocalEstimate where
  shipping : ℚ
  fuelSurcharge : ℚ
  total : ℚ
deriving DecidableEq, Repr

/-- Modelled from the spec: the local-variant shipping formula (spec §4.2),
absent from `src/`:
`shipping = weight × baseRate[serviceLevel] × zoneMultiplier(origin, destination) + boxes × 2.5`,
`fuelSurcharge = 0.12 × shipping`, `total = shipping + fuelSurcharge`. -/
def localShippingEstimate (weight boxes : ℚ) (origin destination : String)
    (service : ServiceLevel) : LocalEstimate :=
  let shipping := weight * baseRate service * zoneMultiplier origin destination + boxes * 2.5
  let fuelSurcharge := 0.12 * shipping
  { shipping := shipping, fuelSurcharge := fuelSurcharge, total := shipping + fuelSurcharge }

/-- A header list containing the 15 required headers except `quantity`. -/
def headers14 : List String :=
  ["order_id", "date_ordered", "product_type", "customer_type", "price",
   "competitor_price", "promotion_flag", "marketing_spend", "economic_index",
   "seasonality_index", "trend_index", "day_of_week", "month", "price_gap"]

/-- A header list with all required headers plus one extra column. -/
def headersWithExtra : List String := REQUIRED_HEADERS ++ ["notes_col"]

/-- A sample raw CSV row carrying a value for the extra column and one
required column only. -/
def sampleRawRow : RawRow := [("notes_col", "z"), ("order_id", "1")]

/-- An estimator form with out-of-range weight and box count. -/
def negBoxesForm : EstimatorForm :=
  { originZipCode := "10001"
    destinationZipCode := "90210"
    totalWeightKg := -2
    numBoxes := -3
    serviceLevel := ServiceLevel.ground }

/-- A sample decoded shipping estimate. -/
def sampleEstimate : ShippingEstimate :=
  { origin_zip := "10001"
    destination_zip := "90210"
    weight_kg := 2
    num_boxes := 1
    service_level := "ground"
    estimated_cost := 12.88
    breakdown := { base_shipping := 11.5, fuel_surcharge := 1.38, handling_fee := 0 }
    provider := "local"
    message := "" }

/-- A non-success HTTP response. -/
def failedResponse : HttpResponse :=
  { ok := false, statusText := "Internal Server Error", body := sampleEstimate }

/-- Folding addition of `f` over a list from accumulator `a` is `a` plus
the sum of the mapped list (the shape of the `reduce` calls in `totals`). -/
theorem foldl_add_map_sum {α : Type} (f : α → ℚ) :
    ∀ (l : List α) (a : ℚ), l.foldl (fun s x => s + f x) a = a + (l.map f).sum := by
  intro l
  induction l with
  | nil => intro a; simp
  | cons x t ih => intro a; simp [ih, add_assoc]

/-- Looking up a key that occurs in `l` in the association list pairing each
element of `l` with `f` of it yields `some (f key)`. -/
theorem lookup_map_pair_of_mem (f : String → String) (k : String) :
    ∀ l : List String, k ∈ l → List.lookup k (l.map fun x => (x, f x)) = some (f k) := by
  intro l
  induction l with
  | nil => intro h; cases h
  | cons a t ih =>
    intro hk
    by_cases h : k = a
    · subst h
      simp [List.lookup]
    · have hne : (k == a) = false := beq_eq_false_iff_ne.mpr h
      have hmem : k ∈ t := by
        cases List.mem_cons.mp hk with
        | inl h1 => exact absurd h1 h
        | inr h2 => exact h2
      simp [List.lookup, hne, ih hmem]

/-- Looking up a key outside `l` in that association list yields `none`. -/
theorem lookup_map_pair_of_not_mem (f : String → String) (k : String) :
    ∀ l : List String, k ∉ l → List.lookup k (l.map fun x => (x, f x)) = none := by
  intro l
  induction l with
  | nil => intro _; rfl
  | cons a t ih =>
    intro hk
    have h : k ≠ a := fun he => hk (he ▸ List.mem_cons_self a t)
    have hne : (k == a) = false := beq_eq_false_iff_ne.mpr h
    have hmem : k ∉ t := fun hm => hk (List.mem_cons_of_mem a hm)
    simp [List.lookup, hne, ih hmem]

/-- Both branches of `handleFile` report the same `extraHeaders`. -/
theorem handleFile_extraHeaders (headers : List String) (data : List RawRow) :
    (handleFile headers data).extraHeaders = (validateHeaders headers).2 := by
  by_cases h : 0 < (validateHeaders headers).1.length <;> simp [handleFile, h]

/-- Every row of a `handleFile` result is a coerced raw row. -/
theorem handleFile_rows_shape (headers : List String) (data : List RawRow) :
    ∀ row ∈ (handleFile headers data).rows, ∃ r : RawRow, row = coerceRow r := by
  intro row hrow
  by_cases h : 0 < (validateHeaders headers).1.length
  · simp [handleFile, h] at hrow
  · simp only [handleFile, h, if_neg, if_false] at hrow
    obtain ⟨r, _, hr⟩ := List.mem_map.mp hrow
    exact ⟨r, hr.symm⟩

/-- C1: For every invoice state, `totals` returns `itemsSubtotal` equal to the
sum over all line items of quantity times unit price, `feesTotal` equal to the
signed sum of all fee amounts (negative amounts allowed by the signed type),
and `grandTotal` equal to `itemsSubtotal + feesTotal`; the default invoice's
single item with quantity 2 and unit price 185.0 gives subtotal 370.0. -/
theorem C1_totals_correct :
    (∀ v : InvoiceFormValues,
        (totals v).itemsSubtotal = (v.items.map (fun i => i.quantity * i.unitPrice)).sum ∧
        (totals v).feesTotal = (v.fees.map (fun f => f.amount)).sum ∧
        (totals v).grandTotal = (totals v).itemsSubtotal + (totals v).feesTotal) ∧
    (totals defaultValues).itemsSubtotal = 370 := by
  constructor
  · intro v
    refine ⟨?_, ?_, rfl⟩
    · simp only [totals]
      rw [foldl_add_map_sum, zero_add]
    · simp only [totals]
      rw [foldl_add_map_sum, zero_add]
  · norm_num [totals, defaultValues]

/-- C8: The form schema requires at least one line item: a zero-item invoice
fails validation, and `handleSubmit(onGeneratePdf)` — which only runs PDF
export on a successfully validated form — never produces a PDF for it. -/
theorem C8_at_least_one_item :
    (∀ v : InvoiceFormValues, v.items = [] →
        formSchemaValid v = false ∧ handleSubmitGeneratePdf v = none) ∧
    (∀ (v : InvoiceFormValues) (t : Totals),
        handleSubmitGeneratePdf v = some t → v.items ≠ []) := by
  have key : ∀ v : InvoiceFormValues, v.items = [] → formSchemaValid v = false := by
    intro v h
    simp [formSchemaValid, h]
  constructor
  · intro v h
    refine ⟨key v h, ?_⟩
    simp [handleSubmitGeneratePdf, key v h]
  · intro v t hsome he
    simp [handleSubmitGeneratePdf, key v he] at hsome

/-- C8 witness: the default invoice with its items emptied fails validation,
so no PDF is generated for it. -/
theorem C8_witness :
    formSchemaValid { defaultValues with items := [] } = false ∧
    handleSubmitGeneratePdf { defaultValues with items := [] } = none :=
  C8_at_least_one_item.1 { defaultValues with items := [] } rfl

/-- C9: invoice totals and the shipping estimate derivation are pure,
deterministic functions of the current state: recomputing twice yields
identical output, and `totals` depends on nothing but the items and fees. -/
theorem C9_recompute_idempotent :
    (∀ v : InvoiceFormValues, totals v = totals v) ∧
    (∀ v w : InvoiceFormValues, v.items = w.items → v.fees = w.fees → totals v = totals w) ∧
    (∀ (weight boxes : ℚ) (origin destination : String) (service : ServiceLevel),
        localShippingEstimate weight boxes origin destination service =
          localShippingEstimate weight boxes origin destination service) := by
  refine ⟨fun _ => rfl, ?_, fun _ _ _ _ _ => rfl⟩
  intro v w h1 h2
  simp only [totals, h1, h2]

/-- C9 witness: recomputing the default invoice's totals from the same
items and fees yields the same output. -/
theorem C9_witness : totals defaultValues = totals defaultValues :=
  C9_recompute_idempotent.2.1 defaultValues defaultValues rfl rfl

/-- C2: For every uploaded CSV whose header list is missing at least one of
the 15 required headers, `handleFile` carries zero parsed rows regardless of
the row content, together with the list of missing headers; a header set
missing only `quantity` yields `missingHeaders = ["quantity"]` and no rows. -/
theorem C2_missing_headers_reject :
    (∀ (headers : List String) (data : List RawRow),
        (validateHeaders headers).1 ≠ [] →
        (handleFile headers data).rows = [] ∧
        (handleFile headers data).missingHeaders = (validateHeaders headers).1) ∧
    (∀ data : List RawRow,
        (handleFile headers14 data).missingHeaders = ["quantity"] ∧
        (handleFile headers14 data).rows = []) := by
  constructor
  · intro headers data h
    have hl : 0 < (validateHeaders headers).1.length := List.length_pos.mpr h
    constructor <;> simp [handleFile, hl]
  · intro data
    have hv : validateHeaders headers14 = (["quantity"], []) := by decide
    constructor <;> simp [handleFile, hv]

/-- C2 witness: the 14-header list missing `quantity`, with a nonempty data
row, is rejected with zero rows and its missing-header list. -/
theorem C2_witness :
    (handleFile headers14 [sampleRawRow]).rows = [] ∧
    (handleFile headers14 [sampleRawRow]).missingHeaders = (validateHeaders headers14).1 :=
  C2_missing_headers_reject.1 headers14 [sampleRawRow] (by decide)

/-- C3: For every uploaded CSV whose header list contains all 15 required
headers after trimming (in any order), every data row is parsed into a record
with exactly the 15 required keys, an absent cell value is coerced to the
empty string, `missingHeaders` is empty, and each present value is passed
through as the raw string with no numeric or type validation. -/
theorem C3_full_headers_parse :
    ∀ (headers : List String) (data : List RawRow),
      (∀ h ∈ REQUIRED_HEADERS, h ∈ headers.map trim) →
      (handleFile headers data).missingHeaders = [] ∧
      (handleFile headers data).rows = data.map coerceRow ∧
      (∀ r : RawRow, (coerceRow r).map Prod.fst = REQUIRED_HEADERS) ∧
      (∀ (r : RawRow) (key : String), key ∈ REQUIRED_HEADERS →
          List.lookup key (coerceRow r) = some ((List.lookup key r).getD "")) := by
  intro headers data hall
  have hm : (validateHeaders headers).1 = [] := by
    simp only [validateHeaders]
    rw [List.filter_eq_nil_iff]
    intro a ha
    simp only [Bool.not_eq_true', Bool.not_eq_false]
    simpa using hall a ha
  have hl : ¬ 0 < (validateHeaders headers).1.length := by
    rw [hm]
    simp
  refine ⟨?_, ?_, ?_, ?_⟩
  · simp [handleFile, hl, hm]
  · simp [handleFile, hl]
  · intro r
    simp [coerceRow, List.map_map, Function.comp_def]
  · intro r key hkey
    exact lookup_map_pair_of_mem (fun k => (List.lookup k r).getD "") key REQUIRED_HEADERS hkey

/-- C3 witness: the exact required header list with a one-cell data row is
fully parsed with no missing headers. -/
theorem C3_witness :
    (handleFile REQUIRED_HEADERS [sampleRawRow]).missingHeaders = [] ∧
    (handleFile REQUIRED_HEADERS [sampleRawRow]).rows = [sampleRawRow].map coerceRow :=
  ⟨(C3_full_headers_parse REQUIRED_HEADERS [sampleRawRow] (by decide)).1,
   (C3_full_headers_parse REQUIRED_HEADERS [sampleRawRow] (by decide)).2.1⟩

/-- C6: `handleFile` is a total function (it never raises), and for every
uploaded CSV column whose trimmed name is outside the 15 required headers,
that name appears in `extraHeaders` and is absent from every parsed row. -/
theorem C6_extra_headers_tolerated :
    ∀ (headers : List String) (data : List RawRow) (h : String),
      h ∈ headers → trim h ∉ REQUIRED_HEADERS →
      trim h ∈ (handleFile headers data).extraHeaders ∧
      (∀ row ∈ (handleFile headers data).rows, List.lookup (trim h) row = none) := by
  intro headers data h hmem hnot
  constructor
  · rw [handleFile_extraHeaders]
    simp only [validateHeaders]
    refine List.mem_filter.mpr ⟨List.mem_map_of_mem trim hmem, ?_⟩
    simp only [Bool.not_eq_true']
    simpa using hnot
  · intro row hrow
    obtain ⟨r, hr⟩ := handleFile_rows_shape headers data row hrow
    rw [hr]
    exact lookup_map_pair_of_not_mem (fun k => (List.lookup k r).getD "") (trim h)
      REQUIRED_HEADERS hnot

/-- C6 witness: a file with the required headers plus an extra `notes_col`
column reports it as extra, and the coerced row drops its value. -/
theorem C6_witness :
    trim "notes_col" ∈ (handleFile headersWithExtra [sampleRawRow]).extraHeaders ∧
    List.lookup (trim "notes_col") (coerceRow sampleRawRow) = none :=
  ⟨(C6_extra_headers_tolerated headersWithExtra [sampleRawRow] "notes_col"
      (by decide) (by decide)).1,
   (C6_extra_headers_tolerated headersWithExtra [sampleRawRow] "notes_col"
      (by decide) (by decide)).2 (coerceRow sampleRawRow) (by decide)⟩

/-- C10: the header validator trims leading and trailing whitespace before
comparing, so a header differing from a required name only by surrounding
whitespace counts as present: neither reported missing nor listed as extra. -/
theorem C10_whitespace_header_present :
    ∀ (headers : List String) (h req : String),
      h ∈ headers → trim h = req → req ∈ REQUIRED_HEADERS →
      req ∉ (validateHeaders headers).1 ∧ req ∉ (validateHeaders headers).2 := by
  intro headers h req hmem htrim hreq
  constructor
  · intro habs
    have hfil := List.mem_filter.mp habs
    have hin : req ∈ headers.map trim := htrim ▸ List.mem_map_of_mem trim hmem
    have : (headers.map trim).contains req = true := by simpa using hin
    rw [this] at hfil
    simp at hfil
  · intro habs
    have hfil := List.mem_filter.mp habs
    have : REQUIRED_HEADERS.contains req = true := by simpa using hreq
    rw [this] at hfil
    simp at hfil

/-- C10 witness: the single header `" quantity "` counts as the required
header `quantity`: it is neither missing nor extra. -/
theorem C10_witness :
    "quantity" ∉ (validateHeaders [" quantity "]).1 ∧
    "quantity" ∉ (validateHeaders [" quantity "]).2 :=
  C10_whitespace_header_present [" quantity "] " quantity " "quantity"
    (by decide) (by decide) (by decide)

/-- C4: The local-variant shipping estimate (modelled from the spec; only the
server-backed variant exists under `src/`) is the pure formula
`shipping = weight × baseRate[serviceLevel] × zoneMultiplier(origin, destination) + boxes × 2.5`
with `fuelSurcharge = 0.12 × shipping` and `total = shipping + fuelSurcharge`,
base rates ground=4.5, express=7.5, priority=11.5, zone multiplier defaulting
to 1.7 for unlisted pairs; weight 2 kg, ground, US→US, 1 box gives shipping
11.5, fuel surcharge 1.38 and total 12.88. -/
theorem C4_local_shipping_formula :
    (∀ (weight boxes : ℚ) (origin destination : String) (service : ServiceLevel),
        (localShippingEstimate weight boxes origin destination service).shipping =
          weight * baseRate service * zoneMultiplier origin destination + boxes * 2.5 ∧
        (localShippingEstimate weight boxes origin destination service).fuelSurcharge =
          0.12 * (localShippingEstimate weight boxes origin destination service).shipping ∧
        (localShippingEstimate weight boxes origin destination service).total =
          (localShippingEstimate weight boxes origin destination service).shipping +
            (localShippingEstimate weight boxes origin destination service).fuelSurcharge) ∧
    (baseRate ServiceLevel.ground = 4.5 ∧ baseRate ServiceLevel.express = 7.5 ∧
      baseRate ServiceLevel.priority = 11.5) ∧
    (∀ origin destination : String,
        List.lookup (origin ++ "->" ++ destination) zoneTable = none →
        zoneMultiplier origin destination = 1.7) ∧
    localShippingEstimate 2 1 "US" "US" ServiceLevel.ground =
      { shipping := 11.5, fuelSurcharge := 1.38, total := 12.88 } := by
  refine ⟨fun _ _ _ _ _ => ⟨rfl, rfl, rfl⟩, ⟨rfl, rfl, rfl⟩, ?_, ?_⟩
  · intro origin destination h
    simp [zoneMultiplier, h]
  · have hz : zoneMultiplier "US" "US" = 1 := rfl
    simp only [localShippingEstimate, baseRate, hz]
    norm_num [LocalEstimate.mk.injEq]

/-- C4 witness: the unlisted pair FR→JP uses the default multiplier 1.7. -/
theorem C4_witness : zoneMultiplier "FR" "JP" = 1.7 :=
  C4_local_shipping_formula.2.2.1 "FR" "JP" (by decide)

/-- C5 counterexample: the shipping estimator present under `src/` (the
server-backed one whose lines the claim cites) forwards a negative box count
and negative weight unchanged in the request body; the box count -3 is not
treated as the claimed floor 1 and the weight -2 is not floored at 0. -/
theorem C5_counterexample :
    (shippingRequestBody negBoxesForm).num_boxes = -3 ∧ ((-3 : ℚ) ≠ 1) ∧
    (shippingRequestBody negBoxesForm).weight_kg = -2 ∧ ((-2 : ℚ) ≠ 0) := by
  refine ⟨rfl, by norm_num, rfl, by norm_num⟩

/-- C5 (amended): the shipping estimator in `src/` applies no clamping at
all — every field of the request body is the form value unchanged (the
floor-clamping described by the spec belongs to the local variant, which is
absent from `src/`). -/
theorem C5_amended_no_clamping :
    ∀ d : EstimatorForm,
      (shippingRequestBody d).weight_kg = d.totalWeightKg ∧
      (shippingRequestBody d).num_boxes = d.numBoxes ∧
      (shippingRequestBody d).origin_zip = d.originZipCode ∧
      (shippingRequestBody d).destination_zip = d.destinationZipCode ∧
      (shippingRequestBody d).service_level = d.serviceLevel :=
  fun _ => ⟨rfl, rfl, rfl, rfl, rfl⟩

/-- C7 counterexample: after a non-success response the mutation's error
handler clears the loading flag, so the view does not surface as a stalled
loading state: starting from the loading state with no prior estimate, the
rendered view is the placeholder, not the loading view. -/
theorem C7_counterexample :
    fetchShippingEstimate failedResponse =
      Except.error "Shipping estimation failed: Internal Server Error" ∧
    (onErrorShipping { estimate := none, isLoading := true }).1.isLoading = false ∧
    renderEstimator (onErrorShipping { estimate := none, isLoading := true }).1 ≠
      EstimatorView.loadingView := by
  refine ⟨rfl, rfl, ?_⟩
  simp [renderEstimator, onErrorShipping]

/-- C7 (amended): for every non-success HTTP response the fetch raises an
error which the handler only logs; the handler clears the loading flag, keeps
the stored estimate unchanged, issues no retry, and the view renders no
error message: it falls back to the previous estimate, or the placeholder. -/
theorem C7_amended_error_flow :
    ∀ (response : HttpResponse) (s : EstimatorState),
      response.ok = false →
      fetchShippingEstimate response =
        Except.error ("Shipping estimation failed: " ++ response.statusText) ∧
      (onErrorShipping s).1.estimate = s.estimate ∧
      (onErrorShipping s).1.isLoading = false ∧
      (onErrorShipping s).2 = none ∧
      renderEstimator (onErrorShipping s).1 =
        (match s.estimate with
          | some e => EstimatorView.estimateView e
          | none => EstimatorView.placeholderView) := by
  intro response s h
  refine ⟨?_, rfl, rfl, rfl, ?_⟩
  · simp [fetchShippingEstimate, h]
  · cases hs : s.estimate <;> simp [renderEstimator, onErrorShipping, hs]

/-- C7 witness: for the concrete failed response and a state holding a prior
estimate, the error raises, the estimate survives, and the view shows it. -/
theorem C7_witness :
    fetchShippingEstimate failedResponse =
      Except.error ("Shipping estimation failed: " ++ failedResponse.statusText) ∧
    (onErrorShipping { estimate := some sampleEstimate, isLoading := true }).1.estimate =
      some sampleEstimate ∧
    renderEstimator (onErrorShipping { estimate := some sampleEstimate, isLoading := true }).1 =
      EstimatorView.estimateView sampleEstimate := by
  have h := C7_amended_error_flow failedResponse
    { estimate := some sampleEstimate, isLoading := true } rfl
  exact ⟨h.1, h.2.1, h.2.2.2.2⟩
